import Mathlib

/-!
# Verification of the telemetry_toolkit simulator core

A shallow embedding of `src/telemetry_toolkit/simulator/generator.py`
(`TelemetrySimulator`), `src/telemetry_toolkit/simulator/data.py`
(`TelemetryData`) and `src/telemetry_toolkit/simulator/control.py`
(`ControlCommand`, `VehicleControlSystem`), together with theorems about
the spec-level properties of that code.

Modelling conventions:
* Python floats are modelled as rationals (`ℚ`); the properties at stake
  are threshold/range logic, stated by the spec over real numbers.
* `np.clip(x, lo, hi)` is `min hi (max lo x)`.
* Python's float `%` with a positive divisor is `x - m * ⌊x / m⌋`.
* Gaussian noise (`_add_noise`) affects only the *reported* values inside
  the produced snapshot, never the internal `current_state` used by the
  next tick; the claims below are about the internal state and about the
  structure of the snapshot construction, so the noise sample is not
  modelled (the construction outcome below does not depend on it).
* `latitude`/`longitude` of `current_state` are carried in the state; the
  position update (generator.py lines 102-109) advances them by
  `speed * 1e-5 * cos/sin(heading in radians)`.  The trigonometric factors
  are transcendental, so the embedding takes them as an abstract pair of
  functions `Trig`; no claim constrains latitude/longitude, and the
  position update writes no other field.
* `asyncio` queueing/timing is sequentialised: the single-consumer command
  loop applies commands one at a time in arrival order (spec §5 guarantees
  exactly this), and `await asyncio.sleep` is a state-preserving pause.
-/

/-- Abstract trigonometric oracle for the position update
(`np.cos`/`np.sin` of the heading converted to radians).  The claims never
constrain latitude/longitude, so the development is parametric in it. -/
structure Trig where
  cosd : ℚ → ℚ
  sind : ℚ → ℚ

/-- `np.clip(x, lo, hi)`: `lo` is applied first, then `hi`. -/
def npClip (x lo hi : ℚ) : ℚ := min hi (max lo x)

/-- Python's float modulo with positive divisor: the result has the sign
of the divisor, `x % m = x - m * ⌊x / m⌋`. -/
def pyMod (x m : ℚ) : ℚ := x - m * ⌊x / m⌋

/-- The mutable state of `TelemetrySimulator` (generator.py lines 42-65):
configuration, `current_state` dict, movement parameters and heading. -/
structure SimState where
  update_interval : ℚ
  noise_factor : ℚ
  altitude : ℚ
  speed : ℚ
  battery_level : ℚ
  latitude : ℚ
  longitude : ℚ
  target_altitude : Option ℚ
  target_speed : Option ℚ
  altitude_change_rate : ℚ
  acceleration : ℚ
  battery_drain_rate : ℚ
  heading : ℚ
  deriving Repr, DecidableEq

/-- `TelemetrySimulator.__init__` (generator.py lines 22-68): initial
state from the constructor arguments.  `target_altitude`/`target_speed`
start as `None`, the rates at `0.0`, `battery_drain_rate` at `-0.05`,
`heading` at `0.0`. -/
def initSimState (update_interval noise_factor initial_altitude initial_speed
    initial_battery lat lon : ℚ) : SimState where
  update_interval := update_interval
  noise_factor := noise_factor
  altitude := initial_altitude
  speed := initial_speed
  battery_level := initial_battery
  latitude := lat
  longitude := lon
  target_altitude := none
  target_speed := none
  altitude_change_rate := 0
  acceleration := 0
  battery_drain_rate := -(5/100)
  heading := 0

/-- The default constructor call `TelemetrySimulator()` (all defaults:
interval 1.0, noise 0.1, altitude 100, speed 0, battery 100, SF position). -/
def defaultSimState : SimState :=
  initSimState 1 (1/10) 100 0 100 (377749/10000) (-(1224194/10000))

/-- `_update_movement`, altitude-target block (generator.py lines 81-87):
if a target altitude is set, either clear it (when `|diff| < 1.0`; the
stored rate is left as it was) or set the rate to
`np.clip(diff / 10.0, -10.0, 10.0)`. -/
def altitudeTargetStep (s : SimState) : SimState :=
  match s.target_altitude with
  | none => s
  | some t =>
      if |t - s.altitude| < 1 then { s with target_altitude := none }
      else { s with altitude_change_rate := npClip ((t - s.altitude) / 10) (-10) 10 }

/-- `_update_movement`, speed-target block (generator.py lines 89-95):
analogous, with reach-threshold `0.1` and rate
`np.clip(diff / 5.0, -2.0, 2.0)`. -/
def speedTargetStep (s : SimState) : SimState :=
  match s.target_speed with
  | none => s
  | some t =>
      if |t - s.speed| < 1/10 then { s with target_speed := none }
      else { s with acceleration := npClip ((t - s.speed) / 5) (-2) 2 }

/-- `_update_movement`, "apply movement changes" block (generator.py
lines 97-99): unconditionally `altitude += altitude_change_rate *
update_interval` and `speed += acceleration * update_interval`. -/
def applyRates (s : SimState) : SimState :=
  { s with
    altitude := s.altitude + s.altitude_change_rate * s.update_interval,
    speed := s.speed + s.acceleration * s.update_interval }

/-- `_update_movement`, position block (generator.py lines 101-109): if
the (just updated) speed is positive, advance latitude/longitude along
the heading; only those two fields are written. -/
def positionStep (T : Trig) (s : SimState) : SimState :=
  if 0 < s.speed then
    let speed_deg := s.speed * (1/100000)
    { s with
      latitude := s.latitude + speed_deg * T.cosd s.heading,
      longitude := s.longitude + speed_deg * T.sind s.heading }
  else s

/-- `TelemetrySimulator._update_movement` (generator.py lines 77-109):
the four blocks above, in source order. -/
def updateMovement (T : Trig) (s : SimState) : SimState :=
  positionStep T (applyRates (speedTargetStep (altitudeTargetStep s)))

/-- `TelemetrySimulator._update_battery` (generator.py lines 111-125):
`drain = battery_drain_rate - |acceleration|*0.01 - |altitude_change_rate|*0.005`,
then `battery += drain * update_interval`, clipped into `[0, 100]`. -/
def updateBattery (s : SimState) : SimState :=
  let drain := s.battery_drain_rate - |s.acceleration| * (1/100)
      - |s.altitude_change_rate| * (5/1000)
  { s with battery_level :=
      npClip (s.battery_level + drain * s.update_interval) 0 100 }

/-- The state-advancing part of one tick of `generate_data`
(generator.py lines 161-163): `_update_movement` then `_update_battery`. -/
def tick (T : Trig) (s : SimState) : SimState :=
  updateBattery (updateMovement T s)

/-- `n` consecutive ticks of the driving loop. -/
def ticks (T : Trig) : Nat → SimState → SimState
  | 0, s => s
  | n+1, s => ticks T n (tick T s)

/-- `TelemetrySimulator.set_target_altitude` (generator.py lines 179-182):
stores `max 0 value` as the new target. -/
def setTargetAltitude (altitude : ℚ) (s : SimState) : SimState :=
  { s with target_altitude := some (max 0 altitude) }

/-- `TelemetrySimulator.set_target_speed` (generator.py lines 184-187):
stores `max 0 value` as the new target. -/
def setTargetSpeed (speed : ℚ) (s : SimState) : SimState :=
  { s with target_speed := some (max 0 speed) }

/-- `TelemetrySimulator.set_heading` (generator.py lines 189-192):
stores `heading % 360.0`. -/
def setHeading (heading : ℚ) (s : SimState) : SimState :=
  { s with heading := pyMod heading 360 }

/-- A trivial trigonometric oracle used to instantiate witnesses; the
theorems themselves are parametric in the oracle. -/
def trig0 : Trig where
  cosd := fun _ => 1
  sind := fun _ => 0

/-! ## The snapshot type and the construction performed by `generate_data`

`TelemetryData` (data.py lines 5-20) is a dataclass with exactly five
fields: `timestamp`, `altitude`, `speed`, `battery_level`,
`sensor_readings`.  Its generated `__init__` therefore accepts exactly
those five keyword arguments; calling it with any other keyword raises
`TypeError: __init__() got an unexpected keyword argument ...`.
`generate_data` (generator.py lines 166-174) calls it with seven keywords,
including `latitude` and `longitude`.  The embedding models the dataclass
call by checking the passed keyword names against the declared field
names, exactly as CPython does. -/

/-- A single telemetry data point (`TelemetryData`, data.py lines 5-20).
The timestamp is an abstract rational instant; `sensor_readings` is the
`Dict[str, float]` as an association list. -/
structure TelemetryData where
  timestamp : ℚ
  altitude : ℚ
  speed : ℚ
  battery_level : ℚ
  sensor_readings : List (String × ℚ)
  deriving Repr, DecidableEq

/-- The field names of the `TelemetryData` dataclass (data.py lines
16-20), in declaration order.  These are exactly the keyword parameters
its generated `__init__` accepts. -/
def telemetryDataFieldNames : List String :=
  ["timestamp", "altitude", "speed", "battery_level", "sensor_readings"]

/-- The keyword-argument names that `generate_data` passes to
`TelemetryData(...)` (generator.py lines 166-174), in source order. -/
def generateDataKeywords : List String :=
  ["timestamp", "altitude", "speed", "battery_level",
   "latitude", "longitude", "sensor_readings"]

/-- CPython semantics of calling a function whose keyword parameters are
`declared` with the keyword names `passed`: if some passed keyword is not
a declared parameter the call raises `TypeError` (before the body runs);
otherwise it returns the constructed value. -/
def dataclassCall (declared passed : List String) (value : TelemetryData) :
    Except String TelemetryData :=
  match passed.find? (fun k => !(declared.contains k)) with
  | some k => .error ("TypeError: unexpected keyword argument " ++ k)
  | none => .ok value

/-- `TelemetrySimulator._generate_sensor_readings` (generator.py lines
127-149) evaluated at its noise-free center (`_add_noise` with a zero
noise sample returns its argument; the pressure formula's `np.exp` is
taken as an abstract function `pexp` since no claim constrains it). -/
def generateSensorReadings (pexp : ℚ → ℚ) (s : SimState) :
    List (String × ℚ) :=
  let temperature := 25 + s.altitude * (-(65/10000))
  let pressure := (101325/1000) * pexp (-(s.altitude) / 8400)
  let humidity := npClip 60 0 100
  [("temperature", temperature), ("pressure", pressure),
   ("humidity", humidity), ("vibration", s.speed * (1/10))]

/-- `TelemetrySimulator.generate_data` (generator.py lines 151-177):
first `_update_movement` and `_update_battery` run (so the internal state
does advance), then `TelemetryData(...)` is called with the keyword
arguments `generateDataKeywords` — including `latitude=` and
`longitude=`, which the dataclass does not declare.  The result is the
advanced state together with either the constructed snapshot or the
raised exception. -/
def generate_data (T : Trig) (pexp : ℚ → ℚ) (now : ℚ) (s : SimState) :
    SimState × Except String TelemetryData :=
  let s' := tick T s
  (s', dataclassCall telemetryDataFieldNames generateDataKeywords
    { timestamp := now
      altitude := s'.altitude
      speed := s'.speed
      battery_level := s'.battery_level
      sensor_readings := generateSensorReadings pexp s' })

/-! ## The driving loop's history buffer

`start_simulation` (generator.py lines 194-214) per iteration: calls
`generate_data`; on success appends the snapshot to `data_buffer` and, if
the buffer length now exceeds 1000, pops the element at index 0 (the
oldest); on any exception the error is logged and the loop continues with
the buffer untouched (`except ... continue`).  An iteration is modelled by
what it appends: `some d` for a successful tick, `none` for a tick whose
exception was swallowed. -/

/-- One iteration of the `start_simulation` loop body acting on
`data_buffer` (generator.py lines 202-214). -/
def bufferStep (buf : List TelemetryData) (d : Option TelemetryData) :
    List TelemetryData :=
  match d with
  | none => buf
  | some x =>
      let b := buf ++ [x]
      if 1000 < b.length then b.tail else b

/-- The `data_buffer` produced by running the loop from the initial empty
buffer (generator.py line 65) over a given sequence of iteration
outcomes. -/
def simulationBuffer (ds : List (Option TelemetryData)) : List TelemetryData :=
  ds.foldl bufferStep []

/-! ## The control system (control.py) -/

/-- `ControlCommand` (control.py lines 9-15). -/
structure ControlCommand where
  target_altitude : Option ℚ := none
  target_speed : Option ℚ := none
  target_heading : Option ℚ := none
  emergency_stop : Bool := false
  deriving Repr, DecidableEq

/-- The state of `VehicleControlSystem` that commands act on: the
emergency latch (control.py line 36) and the owned simulator.  The
command queue and background-task set are scheduling machinery; the
single-consumer loop applies commands one at a time in arrival order, so
command processing is the fold of `processCommand` below. -/
structure ControlState where
  is_emergency_mode : Bool
  sim : SimState
  deriving Repr, DecidableEq

/-- `VehicleControlSystem.__init__` (control.py lines 33-40): the latch
starts `False`. -/
def initControlState (sim : SimState) : ControlState where
  is_emergency_mode := false
  sim := sim

/-- `VehicleControlSystem._activate_emergency_mode` (control.py lines
118-141): set the latch, `set_target_speed(0.0)`, a brief
`asyncio.sleep(0.1)` pause (state-preserving), then
`set_target_altitude(0.0)`.  The subsequent verification step only reads
the targets. -/
def activateEmergencyMode (c : ControlState) : ControlState where
  is_emergency_mode := true
  sim := setTargetAltitude 0 (setTargetSpeed 0 c.sim)

/-- `VehicleControlSystem._process_command` (control.py lines 86-116):
an `emergency_stop` command activates emergency mode and returns; any
other command is dropped while the latch is set; otherwise each present
target field is applied to the simulator via its setter, in source
order. -/
def processCommand (c : ControlState) (cmd : ControlCommand) : ControlState :=
  if cmd.emergency_stop then activateEmergencyMode c
  else if c.is_emergency_mode then c
  else
    let s1 := match cmd.target_altitude with
      | some a => setTargetAltitude a c.sim
      | none => c.sim
    let s2 := match cmd.target_speed with
      | some v => setTargetSpeed v s1
      | none => s1
    let s3 := match cmd.target_heading with
      | some h => setHeading h s2
      | none => s2
    { c with sim := s3 }

/-- The single-consumer loop of `VehicleControlSystem.start` (control.py
lines 42-74) applied to a finite arrival sequence: commands are processed
strictly in arrival order, one at a time. -/
def processCommands (c : ControlState) (cmds : List ControlCommand) :
    ControlState :=
  cmds.foldl processCommand c

/-- Modelled from the spec: `clear_emergency_mode()` is listed in spec
§4.2/§6/§8 as a public operation of the Command Sequencer, but no such
function exists anywhere in the repository's sources (src/, tests/ or
examples/).  Spec §4.2: the clear "succeeds only if a safety predicate
holds (engine altitude ≤ 1.0 AND engine speed ≤ 0.1); otherwise the clear
is a no-op and the system remains in Emergency", and it "returns whether
the clear succeeded". -/
def clear_emergency_mode (c : ControlState) : Bool × ControlState :=
  if c.sim.altitude ≤ 1 ∧ c.sim.speed ≤ 1/10 then
    (true, { c with is_emergency_mode := false })
  else
    (false, c)

/-! ## Concrete states used in counterexamples and witnesses -/

/-- A simulator constructed as `TelemetrySimulator(update_interval=1.0,
noise_factor=0.0, initial_altitude=2.0)` followed by
`set_target_altitude(0.0)` — a state reachable through the public API. -/
def descentFrom2 : SimState :=
  setTargetAltitude 0 (initSimState 1 0 2 0 100 0 0)

/-- A simulator constructed as `TelemetrySimulator(update_interval=1.0,
noise_factor=0.0, initial_speed=2.0)` followed by
`set_target_speed(0.0)` — a state reachable through the public API. -/
def brakeFrom2 : SimState :=
  setTargetSpeed 0 (initSimState 1 0 100 2 100 0 0)

/-- A simulator constructed as `TelemetrySimulator(update_interval=1.0,
noise_factor=0.0, initial_altitude=0.0)` followed by
`set_target_altitude(2.0)` — a state reachable through the public API. -/
def climbTo2 : SimState :=
  setTargetAltitude 2 (initSimState 1 0 0 0 100 0 0)

/-- The spec §8 scenario state: the default engine (altitude 100,
update interval 1) after `set_target_altitude(500.0)`. -/
def scenarioClimb : SimState :=
  setTargetAltitude 500 defaultSimState

/-- A concrete state with an active altitude target, used to instantiate
the convergence theorem: interval 2, altitude 100, target 300. -/
def climbState2 : SimState :=
  { initSimState 2 0 100 0 100 0 0 with target_altitude := some 300 }

/-- A simulator with a large update interval (25 s) at altitude 0 with
altitude target 50, as produced by `TelemetrySimulator(update_interval=25.0,
noise_factor=0.0, initial_altitude=0.0)` + `set_target_altitude(50.0)`. -/
def fastClimb : SimState :=
  { initSimState 25 0 0 0 100 0 0 with target_altitude := some 50 }

/-- A concrete state with no active targets but a nonzero residual
altitude rate, as left behind by a cleared target. -/
def residualRateState : SimState :=
  { initSimState 1 0 50 0 100 0 0 with altitude_change_rate := 3 }

/-- A default telemetry snapshot value, used to populate buffers. -/
def sampleSnapshot : TelemetryData :=
  { timestamp := 0, altitude := 0, speed := 0, battery_level := 100,
    sensor_readings := [] }

/-- A second, distinct snapshot value. -/
def sampleSnapshot2 : TelemetryData :=
  { timestamp := 1, altitude := 7, speed := 1, battery_level := 99,
    sensor_readings := [] }

/-- An emergency-mode control state over a landed, stopped engine
(altitude 0.5, speed 0). -/
def landedEmergency : ControlState :=
  { is_emergency_mode := true, sim := initSimState 1 0 (1/2) 0 100 0 0 }

/-- An emergency-mode control state over an engine still in flight
(altitude 80, speed 12). -/
def flyingEmergency : ControlState :=
  { is_emergency_mode := true, sim := initSimState 1 0 80 12 100 0 0 }

/-! ## Helper lemmas about the tick stages -/

lemma altitudeTargetStep_of_none {s : SimState}
    (h : s.target_altitude = none) : altitudeTargetStep s = s := by
  unfold altitudeTargetStep
  rw [h]

lemma altitudeTargetStep_of_near {s : SimState} {t : ℚ}
    (h : s.target_altitude = some t) (hd : |t - s.altitude| < 1) :
    altitudeTargetStep s = { s with target_altitude := none } := by
  unfold altitudeTargetStep
  rw [h]
  simp only [if_pos hd]

lemma altitudeTargetStep_of_far {s : SimState} {t : ℚ}
    (h : s.target_altitude = some t) (hd : ¬ |t - s.altitude| < 1) :
    altitudeTargetStep s =
      { s with altitude_change_rate := npClip ((t - s.altitude) / 10) (-10) 10 } := by
  unfold altitudeTargetStep
  rw [h]
  simp only [if_neg hd]

lemma speedTargetStep_of_none {s : SimState}
    (h : s.target_speed = none) : speedTargetStep s = s := by
  unfold speedTargetStep
  rw [h]

lemma speedTargetStep_of_near {s : SimState} {t : ℚ}
    (h : s.target_speed = some t) (hd : |t - s.speed| < 1/10) :
    speedTargetStep s = { s with target_speed := none } := by
  unfold speedTargetStep
  rw [h]
  simp only [if_pos hd]

lemma speedTargetStep_of_far {s : SimState} {t : ℚ}
    (h : s.target_speed = some t) (hd : ¬ |t - s.speed| < 1/10) :
    speedTargetStep s =
      { s with acceleration := npClip ((t - s.speed) / 5) (-2) 2 } := by
  unfold speedTargetStep
  rw [h]
  simp only [if_neg hd]

lemma positionStep_altitude (T : Trig) (s : SimState) :
    (positionStep T s).altitude = s.altitude := by
  unfold positionStep
  split <;> rfl

lemma positionStep_speed (T : Trig) (s : SimState) :
    (positionStep T s).speed = s.speed := by
  unfold positionStep
  split <;> rfl

lemma positionStep_heading (T : Trig) (s : SimState) :
    (positionStep T s).heading = s.heading := by
  unfold positionStep
  split <;> rfl

lemma positionStep_target_altitude (T : Trig) (s : SimState) :
    (positionStep T s).target_altitude = s.target_altitude := by
  unfold positionStep
  split <;> rfl

lemma positionStep_target_speed (T : Trig) (s : SimState) :
    (positionStep T s).target_speed = s.target_speed := by
  unfold positionStep
  split <;> rfl

lemma positionStep_altitude_change_rate (T : Trig) (s : SimState) :
    (positionStep T s).altitude_change_rate = s.altitude_change_rate := by
  unfold positionStep
  split <;> rfl

lemma positionStep_acceleration (T : Trig) (s : SimState) :
    (positionStep T s).acceleration = s.acceleration := by
  unfold positionStep
  split <;> rfl

lemma positionStep_battery (T : Trig) (s : SimState) :
    (positionStep T s).battery_level = s.battery_level := by
  unfold positionStep
  split <;> rfl

lemma updateBattery_battery (s : SimState) :
    (updateBattery s).battery_level =
      npClip (s.battery_level +
        (s.battery_drain_rate - |s.acceleration| * (1/100)
          - |s.altitude_change_rate| * (5/1000)) * s.update_interval) 0 100 := rfl

lemma updateBattery_altitude (s : SimState) :
    (updateBattery s).altitude = s.altitude := rfl

lemma updateBattery_speed (s : SimState) :
    (updateBattery s).speed = s.speed := rfl

lemma updateBattery_heading (s : SimState) :
    (updateBattery s).heading = s.heading := rfl

lemma updateBattery_target_altitude (s : SimState) :
    (updateBattery s).target_altitude = s.target_altitude := rfl

lemma updateBattery_target_speed (s : SimState) :
    (updateBattery s).target_speed = s.target_speed := rfl

lemma updateBattery_altitude_change_rate (s : SimState) :
    (updateBattery s).altitude_change_rate = s.altitude_change_rate := rfl

lemma updateBattery_acceleration (s : SimState) :
    (updateBattery s).acceleration = s.acceleration := rfl

lemma speedTargetStep_altitude (s : SimState) :
    (speedTargetStep s).altitude = s.altitude := by
  unfold speedTargetStep
  split
  · rfl
  · split <;> rfl

lemma speedTargetStep_altitude_change_rate (s : SimState) :
    (speedTargetStep s).altitude_change_rate = s.altitude_change_rate := by
  unfold speedTargetStep
  split
  · rfl
  · split <;> rfl

lemma speedTargetStep_target_altitude (s : SimState) :
    (speedTargetStep s).target_altitude = s.target_altitude := by
  unfold speedTargetStep
  split
  · rfl
  · split <;> rfl

lemma speedTargetStep_speed (s : SimState) :
    (speedTargetStep s).speed = s.speed := by
  unfold speedTargetStep
  split
  · rfl
  · split <;> rfl

lemma speedTargetStep_heading (s : SimState) :
    (speedTargetStep s).heading = s.heading := by
  unfold speedTargetStep
  split
  · rfl
  · split <;> rfl

lemma speedTargetStep_update_interval (s : SimState) :
    (speedTargetStep s).update_interval = s.update_interval := by
  unfold speedTargetStep
  split
  · rfl
  · split <;> rfl

lemma altitudeTargetStep_speed (s : SimState) :
    (altitudeTargetStep s).speed = s.speed := by
  unfold altitudeTargetStep
  split
  · rfl
  · split <;> rfl

lemma altitudeTargetStep_acceleration (s : SimState) :
    (altitudeTargetStep s).acceleration = s.acceleration := by
  unfold altitudeTargetStep
  split
  · rfl
  · split <;> rfl

lemma altitudeTargetStep_target_speed (s : SimState) :
    (altitudeTargetStep s).target_speed = s.target_speed := by
  unfold altitudeTargetStep
  split
  · rfl
  · split <;> rfl

lemma altitudeTargetStep_heading (s : SimState) :
    (altitudeTargetStep s).heading = s.heading := by
  unfold altitudeTargetStep
  split
  · rfl
  · split <;> rfl

lemma altitudeTargetStep_update_interval (s : SimState) :
    (altitudeTargetStep s).update_interval = s.update_interval := by
  unfold altitudeTargetStep
  split
  · rfl
  · split <;> rfl

lemma applyRates_altitude (s : SimState) :
    (applyRates s).altitude
      = s.altitude + s.altitude_change_rate * s.update_interval := rfl

lemma applyRates_speed (s : SimState) :
    (applyRates s).speed = s.speed + s.acceleration * s.update_interval := rfl

lemma applyRates_target_altitude (s : SimState) :
    (applyRates s).target_altitude = s.target_altitude := rfl

lemma applyRates_altitude_change_rate (s : SimState) :
    (applyRates s).altitude_change_rate = s.altitude_change_rate := rfl

lemma applyRates_acceleration (s : SimState) :
    (applyRates s).acceleration = s.acceleration := rfl

lemma applyRates_heading (s : SimState) :
    (applyRates s).heading = s.heading := rfl

/-- The altitude produced by a tick whose altitude target is still at
least the reach-threshold away: the freshly clipped rate is applied. -/
lemma tick_altitude_far {T : Trig} {s : SimState} {t : ℚ}
    (h : s.target_altitude = some t) (hd : 1 ≤ |t - s.altitude|) :
    (tick T s).altitude
        = s.altitude + npClip ((t - s.altitude) / 10) (-10) 10 * s.update_interval
      ∧ (tick T s).altitude_change_rate
        = npClip ((t - s.altitude) / 10) (-10) 10 := by
  have hd' : ¬ |t - s.altitude| < 1 := not_lt.mpr hd
  unfold tick updateMovement
  rw [altitudeTargetStep_of_far h hd']
  constructor
  · rw [updateBattery_altitude, positionStep_altitude, applyRates_altitude,
      speedTargetStep_altitude, speedTargetStep_altitude_change_rate,
      speedTargetStep_update_interval]
  · rw [updateBattery_altitude_change_rate, positionStep_altitude_change_rate,
      applyRates_altitude_change_rate, speedTargetStep_altitude_change_rate]

/-- A tick whose altitude target is within the reach-threshold clears the
target, leaves the stored rate alone, and still applies that stale rate. -/
lemma tick_altitude_near {T : Trig} {s : SimState} {t : ℚ}
    (h : s.target_altitude = some t) (hd : |t - s.altitude| < 1) :
    (tick T s).target_altitude = none
      ∧ (tick T s).altitude_change_rate = s.altitude_change_rate
      ∧ (tick T s).altitude
        = s.altitude + s.altitude_change_rate * s.update_interval := by
  unfold tick updateMovement
  rw [altitudeTargetStep_of_near h hd]
  refine ⟨?_, ?_, ?_⟩
  · rw [updateBattery_target_altitude, positionStep_target_altitude,
      applyRates_target_altitude, speedTargetStep_target_altitude]
  · rw [updateBattery_altitude_change_rate, positionStep_altitude_change_rate,
      applyRates_altitude_change_rate, speedTargetStep_altitude_change_rate]
  · rw [updateBattery_altitude, positionStep_altitude, applyRates_altitude,
      speedTargetStep_altitude, speedTargetStep_altitude_change_rate,
      speedTargetStep_update_interval]

/-- A tick with no altitude target still applies the stored rate and
leaves it unchanged. -/
lemma tick_altitude_none {T : Trig} {s : SimState}
    (h : s.target_altitude = none) :
    (tick T s).altitude_change_rate = s.altitude_change_rate
      ∧ (tick T s).altitude
        = s.altitude + s.altitude_change_rate * s.update_interval := by
  unfold tick updateMovement
  rw [altitudeTargetStep_of_none h]
  constructor
  · rw [updateBattery_altitude_change_rate, positionStep_altitude_change_rate,
      applyRates_altitude_change_rate, speedTargetStep_altitude_change_rate]
  · rw [updateBattery_altitude, positionStep_altitude, applyRates_altitude,
      speedTargetStep_altitude, speedTargetStep_altitude_change_rate,
      speedTargetStep_update_interval]

/-- A tick with no speed target still applies the stored acceleration and
leaves it unchanged. -/
lemma tick_speed_none {T : Trig} {s : SimState}
    (h : s.target_speed = none) :
    (tick T s).acceleration = s.acceleration
      ∧ (tick T s).speed = s.speed + s.acceleration * s.update_interval := by
  have hts : (altitudeTargetStep s).target_speed = none := by
    rw [altitudeTargetStep_target_speed, h]
  unfold tick updateMovement
  rw [speedTargetStep_of_none hts]
  constructor
  · rw [updateBattery_acceleration, positionStep_acceleration,
      applyRates_acceleration, altitudeTargetStep_acceleration]
  · rw [updateBattery_speed, positionStep_speed, applyRates_speed,
      altitudeTargetStep_speed, altitudeTargetStep_acceleration,
      altitudeTargetStep_update_interval]

/-- The heading field is never written by a tick. -/
lemma tick_heading (T : Trig) (s : SimState) :
    (tick T s).heading = s.heading := by
  unfold tick updateMovement
  rw [updateBattery_heading, positionStep_heading, applyRates_heading,
    speedTargetStep_heading, altitudeTargetStep_heading]

/-- The real-number modulo underlying `set_heading` lands in `[0, 360)`. -/
lemma pyMod_bounds (v : ℚ) : 0 ≤ pyMod v 360 ∧ pyMod v 360 < 360 := by
  have hfl : (⌊v / 360⌋ : ℚ) ≤ v / 360 := Int.floor_le _
  have hfl' : v / 360 < ⌊v / 360⌋ + 1 := Int.lt_floor_add_one _
  have h1 : (360 : ℚ) * ⌊v / 360⌋ ≤ v := by
    have := mul_le_mul_of_nonneg_left hfl (by norm_num : (0:ℚ) ≤ 360)
    calc (360 : ℚ) * ⌊v / 360⌋ ≤ 360 * (v / 360) := this
      _ = v := by ring
  have h2 : v < 360 * ⌊v / 360⌋ + 360 := by
    have := mul_lt_mul_of_pos_left hfl' (by norm_num : (0:ℚ) < 360)
    calc v = 360 * (v / 360) := by ring
      _ < 360 * ((⌊v / 360⌋ : ℚ) + 1) := this
      _ = 360 * ⌊v / 360⌋ + 360 := by ring
  unfold pyMod
  exact ⟨by linarith, by linarith⟩

/-! ## Claim theorems -/

/-- C1: the claim says one invocation of `generate_data` returns a new
telemetry snapshot without raising to its caller for every state with
normal numeric values.  On the code this is false: `generate_data` passes
the keyword arguments `latitude=` and `longitude=` to `TelemetryData`,
which declares no such fields, so *every* invocation raises `TypeError`
before a snapshot is produced — in particular the one on the
default-constructed simulator. -/
theorem C1_generate_data_always_raises :
    (generate_data trig0 (fun _ => 1) 0 defaultSimState).2
        = Except.error "TypeError: unexpected keyword argument latitude"
      ∧ ∀ (T : Trig) (pexp : ℚ → ℚ) (now : ℚ) (s : SimState),
        (generate_data T pexp now s).2
          = Except.error "TypeError: unexpected keyword argument latitude" := by
  exact ⟨rfl, fun T pexp now s => rfl⟩

/-- C8: after `set_heading(v)` the stored heading is exactly `v mod 360`,
lies in `[0, 360)`, no other field of the state is mutated, and in
particular `set_heading(-30)` stores `330` and `set_heading(725)`
stores `5`. -/
theorem C8_set_heading_normalizes (v : ℚ) (s : SimState) :
    (setHeading v s).heading = pyMod v 360
      ∧ 0 ≤ (setHeading v s).heading
      ∧ (setHeading v s).heading < 360
      ∧ setHeading v s = { s with heading := pyMod v 360 }
      ∧ (setHeading (-30) s).heading = 330
      ∧ (setHeading 725 s).heading = 5 := by
  refine ⟨rfl, (pyMod_bounds v).1, (pyMod_bounds v).2, rfl, ?_, ?_⟩
  · show pyMod (-30) 360 = 330
    unfold pyMod
    norm_num
  · show pyMod 725 360 = 5
    unfold pyMod
    norm_num

/-- C9: the rate-application in a tick is unconditional, and clearing a
reached target does not reset the stored rate: with no altitude target
the stored `altitude_change_rate` is still applied and kept; with no
speed target the stored `acceleration` is still applied and kept; and a
tick that clears a just-reached altitude target keeps the stale rate and
applies it. -/
theorem C9_residual_rates_persist (T : Trig) (s : SimState) :
    (s.target_altitude = none →
        (tick T s).altitude_change_rate = s.altitude_change_rate
          ∧ (tick T s).altitude
            = s.altitude + s.altitude_change_rate * s.update_interval)
      ∧ (s.target_speed = none →
        (tick T s).acceleration = s.acceleration
          ∧ (tick T s).speed
            = s.speed + s.acceleration * s.update_interval)
      ∧ (∀ t, s.target_altitude = some t → |t - s.altitude| < 1 →
        (tick T s).target_altitude = none
          ∧ (tick T s).altitude_change_rate = s.altitude_change_rate
          ∧ (tick T s).altitude
            = s.altitude + s.altitude_change_rate * s.update_interval) := by
  refine ⟨fun h => tick_altitude_none h, fun h => tick_speed_none h,
    fun t h hd => tick_altitude_near h hd⟩

/-- C9 witness: a concrete engine with both targets absent and a
residual altitude rate of `3` left behind by a cleared target still
climbs by `rate * update_interval` on the next tick. -/
theorem C9_residual_rates_persist_witness :
    (tick trig0 residualRateState).altitude
        = residualRateState.altitude
          + residualRateState.altitude_change_rate
            * residualRateState.update_interval
      ∧ (tick trig0 residualRateState).altitude_change_rate
        = residualRateState.altitude_change_rate
      ∧ (tick trig0 residualRateState).altitude = 53 := by
  have h := (C9_residual_rates_persist trig0 residualRateState).1 rfl
  refine ⟨h.2, h.1, ?_⟩
  rw [h.2]
  norm_num [residualRateState, initSimState]

/-- C10: no operation of the control system ever resets the emergency
latch: it starts `false`, and once it is `true`, processing any sequence
of commands through the single-consumer loop leaves it `true` — it
persists for the lifetime of the control system object. -/
theorem C10_emergency_latch_is_permanent (sim : SimState) :
    (initControlState sim).is_emergency_mode = false
      ∧ ∀ (c : ControlState) (cmds : List ControlCommand),
        c.is_emergency_mode = true →
        (processCommands c cmds).is_emergency_mode = true := by
  refine ⟨rfl, ?_⟩
  intro c cmds
  induction cmds generalizing c with
  | nil => exact fun h => h
  | cons cmd rest ih =>
      intro h
      refine ih (processCommand c cmd) ?_
      unfold processCommand
      by_cases hc : cmd.emergency_stop = true
      · simp only [hc, if_true]
        rfl
      · simp [hc, h]

/-- C10 witness: starting from an already-latched control state over the
default engine, processing an ordinary speed command leaves the latch
set; and a freshly initialized control system starts unlatched. -/
theorem C10_emergency_latch_is_permanent_witness :
    (initControlState defaultSimState).is_emergency_mode = false
      ∧ (processCommands
          { is_emergency_mode := true, sim := defaultSimState }
          [{ target_speed := some 5 }]).is_emergency_mode = true := by
  exact ⟨(C10_emergency_latch_is_permanent defaultSimState).1,
    (C10_emergency_latch_is_permanent defaultSimState).2
      { is_emergency_mode := true, sim := defaultSimState }
      [{ target_speed := some 5 }] rfl⟩

/-- C3: processing an `emergency_stop` command latches emergency mode,
sets the engine's `target_speed` to `0.0` and (after the pause) its
`target_altitude` to `0.0`; and a command without `emergency_stop`
processed while emergency mode is active is dropped without invoking any
engine setter (control system and engine are left exactly as they
were). -/
theorem C3_emergency_stop_semantics (c : ControlState) (cmd : ControlCommand) :
    (cmd.emergency_stop = true →
        (processCommand c cmd).is_emergency_mode = true
          ∧ (processCommand c cmd).sim.target_speed = some 0
          ∧ (processCommand c cmd).sim.target_altitude = some 0)
      ∧ (c.is_emergency_mode = true → cmd.emergency_stop = false →
        processCommand c cmd = c) := by
  constructor
  · intro h
    unfold processCommand
    simp only [h, if_true]
    unfold activateEmergencyMode setTargetAltitude setTargetSpeed
    refine ⟨rfl, ?_, ?_⟩ <;> simp
  · intro h1 h2
    unfold processCommand
    simp [h2, h1]

/-- C3 witness: on a fresh control system over the default engine, the
emergency-stop command latches the mode and zeroes both targets, and an
altitude command arriving in an already-latched state leaves everything
unchanged. -/
theorem C3_emergency_stop_semantics_witness :
    ((processCommand (initControlState defaultSimState)
          { emergency_stop := true }).is_emergency_mode = true
        ∧ (processCommand (initControlState defaultSimState)
          { emergency_stop := true }).sim.target_speed = some 0
        ∧ (processCommand (initControlState defaultSimState)
          { emergency_stop := true }).sim.target_altitude = some 0)
      ∧ processCommand { is_emergency_mode := true, sim := defaultSimState }
          { target_altitude := some 200 }
        = { is_emergency_mode := true, sim := defaultSimState } := by
  exact ⟨(C3_emergency_stop_semantics (initControlState defaultSimState)
      { emergency_stop := true }).1 rfl,
    (C3_emergency_stop_semantics
      { is_emergency_mode := true, sim := defaultSimState }
      { target_altitude := some 200 }).2 rfl rfl⟩

/-- C4 (modelled from the spec, the operation being absent from the
sources): `clear_emergency_mode()` returns `true` and exits emergency
mode exactly when engine altitude ≤ 1.0 and engine speed ≤ 0.1, and
otherwise returns `false` leaving the control state (in particular an
active emergency mode) untouched. -/
theorem C4_clear_emergency_mode_safety (c : ControlState) :
    (c.sim.altitude ≤ 1 ∧ c.sim.speed ≤ 1/10 →
        (clear_emergency_mode c).1 = true
          ∧ (clear_emergency_mode c).2.is_emergency_mode = false)
      ∧ ((1 < c.sim.altitude ∨ 1/10 < c.sim.speed) →
        (clear_emergency_mode c).1 = false
          ∧ (clear_emergency_mode c).2 = c) := by
  constructor
  · intro h
    unfold clear_emergency_mode
    rw [if_pos h]
    exact ⟨rfl, rfl⟩
  · intro h
    unfold clear_emergency_mode
    rw [if_neg ?hneg]
    case hneg =>
      rintro ⟨ha, hs⟩
      rcases h with h | h <;> linarith
    exact ⟨rfl, rfl⟩

/-- C4 witness: clearing succeeds on a landed, stopped engine (altitude
0.5, speed 0) and fails — leaving emergency mode latched — on an engine
still at altitude 80 and speed 12. -/
theorem C4_clear_emergency_mode_safety_witness :
    (landedEmergency.sim.altitude ≤ 1 ∧ landedEmergency.sim.speed ≤ 1/10)
      ∧ (clear_emergency_mode landedEmergency).1 = true
      ∧ (clear_emergency_mode landedEmergency).2.is_emergency_mode = false
      ∧ 1 < flyingEmergency.sim.altitude
      ∧ (clear_emergency_mode flyingEmergency).1 = false
      ∧ (clear_emergency_mode flyingEmergency).2 = flyingEmergency := by
  have hl : landedEmergency.sim.altitude ≤ 1 ∧ landedEmergency.sim.speed ≤ 1/10 := by
    norm_num [landedEmergency, initSimState]
  have hf : 1 < flyingEmergency.sim.altitude := by
    norm_num [flyingEmergency, initSimState]
  have h1 := (C4_clear_emergency_mode_safety landedEmergency).1 hl
  have h2 := (C4_clear_emergency_mode_safety flyingEmergency).2 (Or.inl hf)
  exact ⟨hl, h1.1, h1.2, hf, h2.1, h2.2⟩

/-- C7: the history buffer, starting empty, never exceeds 1000 entries
over any run of the driving loop; one loop iteration preserves the bound;
and when an append would exceed the cap, the evicted element is the head
of the buffer — the snapshot appended earliest (FIFO). -/
theorem C7_history_bounded_and_fifo :
    (∀ ds : List (Option TelemetryData), (simulationBuffer ds).length ≤ 1000)
      ∧ (∀ (buf : List TelemetryData) (d : Option TelemetryData),
          buf.length ≤ 1000 → (bufferStep buf d).length ≤ 1000)
      ∧ (∀ (buf : List TelemetryData) (x : TelemetryData),
          buf.length = 1000 → bufferStep buf (some x) = buf.tail ++ [x]) := by
  have hstep : ∀ (buf : List TelemetryData) (d : Option TelemetryData),
      buf.length ≤ 1000 → (bufferStep buf d).length ≤ 1000 := by
    intro buf d h
    cases d with
    | none => exact h
    | some x =>
        unfold bufferStep
        dsimp only
        split
        · rename_i hlen
          simpa [List.length_tail] using h
        · rename_i hlen
          exact not_lt.mp hlen
  have hfold : ∀ (ds : List (Option TelemetryData)) (buf : List TelemetryData),
      buf.length ≤ 1000 → (ds.foldl bufferStep buf).length ≤ 1000 := by
    intro ds
    induction ds with
    | nil => intro buf h; exact h
    | cons d rest ih =>
        intro buf h
        exact ih (bufferStep buf d) (hstep buf d h)
  refine ⟨fun ds => hfold ds [] (by simp), hstep, ?_⟩
  intro buf x h
  unfold bufferStep
  dsimp only
  rw [if_pos ?hgt]
  case hgt =>
    rw [List.length_append, h]
    norm_num
  cases buf with
  | nil =>
      rw [List.length_nil] at h
      exact absurd h (by norm_num)
  | cons a l => simp

/-- C7 witness: a full buffer of 1000 snapshots, on appending one more,
drops exactly its earliest entry, and the resulting length stays within
the cap. -/
theorem C7_history_bounded_and_fifo_witness :
    (List.replicate 1000 sampleSnapshot).length = 1000
      ∧ bufferStep (List.replicate 1000 sampleSnapshot) (some sampleSnapshot2)
        = (List.replicate 1000 sampleSnapshot).tail ++ [sampleSnapshot2]
      ∧ (bufferStep (List.replicate 1000 sampleSnapshot)
          (some sampleSnapshot2)).length ≤ 1000 := by
  have hlen : (List.replicate 1000 sampleSnapshot).length = 1000 :=
    List.length_replicate 1000 sampleSnapshot
  exact ⟨hlen,
    C7_history_bounded_and_fifo.2.2 _ sampleSnapshot2 hlen,
    C7_history_bounded_and_fifo.2.1 _ (some sampleSnapshot2) (le_of_eq hlen)⟩

/-- C5: on a tick with an altitude target set, either the target is
within `1.0` and gets cleared, or the per-tick rate is set to
`clamp((target - altitude)/10, -10, 10)` and the altitude is incremented
by that rate times `update_interval`. -/
theorem C5_altitude_convergence_step (T : Trig) (s : SimState) (t : ℚ)
    (h : s.target_altitude = some t) :
    (|t - s.altitude| < 1 → (tick T s).target_altitude = none)
      ∧ (1 ≤ |t - s.altitude| →
          (tick T s).altitude_change_rate
            = npClip ((t - s.altitude) / 10) (-10) 10
          ∧ (tick T s).altitude
            = s.altitude
              + npClip ((t - s.altitude) / 10) (-10) 10 * s.update_interval) := by
  exact ⟨fun hd => (tick_altitude_near h hd).1,
    fun hd => ⟨(tick_altitude_far h hd).2, (tick_altitude_far h hd).1⟩⟩

/-- C5 witness, the spec §8 scenario: the default engine at altitude 100
with target 500 climbs to `100 + 10 × update_interval = 110` in one
tick. -/
theorem C5_altitude_convergence_step_witness :
    scenarioClimb.target_altitude = some 500
      ∧ (1:ℚ) ≤ |500 - scenarioClimb.altitude|
      ∧ (tick trig0 scenarioClimb).altitude = 100 + 10 * 1 := by
  have ht : scenarioClimb.target_altitude = some 500 := by
    norm_num [scenarioClimb, setTargetAltitude, defaultSimState, initSimState]
  have hd : (1:ℚ) ≤ |500 - scenarioClimb.altitude| := by
    norm_num [scenarioClimb, setTargetAltitude, defaultSimState, initSimState, abs]
  have h := (C5_altitude_convergence_step trig0 scenarioClimb 500 ht).2 hd
  refine ⟨ht, hd, ?_⟩
  rw [h.2]
  norm_num [scenarioClimb, setTargetAltitude, defaultSimState, initSimState,
    npClip, min_def, max_def]

set_option maxRecDepth 10000 in
/-- C2: the claim asserts altitude ≥ 0 and speed ≥ 0 after any tick from
any reachable state.  On the code this is false: rates are applied
unconditionally and never reset, so after a descent (resp. braking)
target is cleared the residual negative rate keeps being applied.  From
the reachable state `TelemetrySimulator(update_interval=1.0,
noise_factor=0.0, initial_altitude=2.0)` + `set_target_altitude(0.0)`,
altitude is negative after 17 ticks; from
`TelemetrySimulator(update_interval=1.0, noise_factor=0.0,
initial_speed=2.0)` + `set_target_speed(0.0)`, speed is negative after
19 ticks. -/
theorem C2_counterexample_negative_altitude_speed :
    (ticks trig0 17 descentFrom2).altitude < 0
      ∧ (ticks trig0 19 brakeFrom2).speed < 0 := by
  constructor
  · norm_num [ticks, tick, updateMovement, updateBattery, positionStep,
      applyRates, speedTargetStep, altitudeTargetStep, npClip, min_def,
      max_def, abs, descentFrom2, initSimState, setTargetAltitude]
  · norm_num [ticks, tick, updateMovement, updateBattery, positionStep,
      applyRates, speedTargetStep, altitudeTargetStep, npClip, min_def,
      max_def, abs, trig0, brakeFrom2, initSimState, setTargetSpeed]

/-- C2 amended: after any tick, `battery_level` stays within `[0, 100]`
(the code clips it) and the heading is untouched by ticks, while
`set_heading` always stores a value in `[0, 360)`; the altitude ≥ 0 and
speed ≥ 0 parts of the claimed invariant do not hold, since the code
never clamps those fields (see the counterexample). -/
theorem C2_amended_battery_heading_invariants (T : Trig) (s : SimState)
    (v : ℚ) :
    0 ≤ (tick T s).battery_level
      ∧ (tick T s).battery_level ≤ 100
      ∧ (tick T s).heading = s.heading
      ∧ 0 ≤ (setHeading v s).heading
      ∧ (setHeading v s).heading < 360 := by
  have hb : (tick T s).battery_level
      = npClip ((updateMovement T s).battery_level
          + ((updateMovement T s).battery_drain_rate
              - |(updateMovement T s).acceleration| * (1/100)
              - |(updateMovement T s).altitude_change_rate| * (5/1000))
            * (updateMovement T s).update_interval) 0 100 :=
    updateBattery_battery (updateMovement T s)
  refine ⟨?_, ?_, tick_heading T s, (pyMod_bounds v).1, (pyMod_bounds v).2⟩
  · rw [hb]
    unfold npClip
    exact le_min (by norm_num) (le_max_left 0 _)
  · rw [hb]
    unfold npClip
    exact min_le_left _ _

set_option maxRecDepth 10000 in
/-- C6: the claim says repeated ticks move altitude monotonically toward
the target T.  On the code this fails once the target is cleared: the
residual rate keeps being applied and carries the altitude past T.  From
the reachable state `TelemetrySimulator(update_interval=1.0,
noise_factor=0.0, initial_altitude=0.0)` + `set_target_altitude(2.0)`
(target T = 2 ≥ 0), tick 17 moves the altitude strictly away from T
compared to tick 16. -/
theorem C6_counterexample_overshoot :
    ((0:ℚ) ≤ 2
      ∧ climbTo2.target_altitude = some 2
      ∧ |2 - (ticks trig0 17 climbTo2).altitude|
        > |2 - (ticks trig0 16 climbTo2).altitude|)
      ∧ ((0:ℚ) ≤ 50
        ∧ fastClimb.target_altitude = some 50
        ∧ |50 - (ticks trig0 1 fastClimb).altitude|
          > |50 - fastClimb.altitude|) := by
  constructor
  · refine ⟨by norm_num, by norm_num [climbTo2, setTargetAltitude, initSimState], ?_⟩
    norm_num [ticks, tick, updateMovement, updateBattery, positionStep,
      applyRates, speedTargetStep, altitudeTargetStep, npClip, min_def,
      max_def, abs, climbTo2, initSimState, setTargetAltitude]
  · refine ⟨by norm_num, rfl, ?_⟩
    norm_num [ticks, tick, updateMovement, updateBattery, positionStep,
      applyRates, speedTargetStep, altitudeTargetStep, npClip, min_def,
      max_def, abs, fastClimb, initSimState]

/-- C6 amended: while the altitude target remains set and the update
interval `u` satisfies `0 < u ≤ 10`, a tick with `|T - altitude| ≥ 1`
moves altitude toward `T` without crossing it and changes it by at most
`10 × u` in magnitude, and a tick with `|T - altitude| < 1` clears the
target.  (After the clear, the residual rate continues to be applied and
the approach is no longer monotone — see the counterexample and C9.) -/
theorem C6_amended_rate_limited_approach (T : Trig) (s : SimState) (t : ℚ)
    (h : s.target_altitude = some t) (hu0 : 0 < s.update_interval)
    (hu10 : s.update_interval ≤ 10) :
    (|t - s.altitude| < 1 → (tick T s).target_altitude = none)
      ∧ (1 ≤ |t - s.altitude| →
          |(tick T s).altitude - s.altitude| ≤ 10 * s.update_interval
          ∧ (s.altitude ≤ t →
              s.altitude ≤ (tick T s).altitude ∧ (tick T s).altitude ≤ t)
          ∧ (t ≤ s.altitude →
              t ≤ (tick T s).altitude ∧ (tick T s).altitude ≤ s.altitude)) := by
  refine ⟨fun hd => (tick_altitude_near h hd).1, fun hd => ?_⟩
  have halt := (tick_altitude_far (T := T) h hd).1
  have hrlo : (-10 : ℚ) ≤ npClip ((t - s.altitude) / 10) (-10) 10 :=
    le_min (by norm_num) (le_max_left _ _)
  have hrhi : npClip ((t - s.altitude) / 10) (-10) 10 ≤ 10 := min_le_left _ _
  refine ⟨?_, ?_, ?_⟩
  · rw [halt]
    have heq : s.altitude + npClip ((t - s.altitude) / 10) (-10) 10
        * s.update_interval - s.altitude
        = npClip ((t - s.altitude) / 10) (-10) 10 * s.update_interval := by
      ring
    rw [heq, abs_mul, abs_of_pos hu0]
    exact mul_le_mul_of_nonneg_right (abs_le.mpr ⟨hrlo, hrhi⟩) (le_of_lt hu0)
  · intro hle
    have hd1 : 1 ≤ t - s.altitude := by
      rwa [abs_of_nonneg (by linarith)] at hd
    have hmax : max (-10 : ℚ) ((t - s.altitude) / 10) = (t - s.altitude) / 10 :=
      max_eq_right (by linarith)
    have hr0 : 0 ≤ npClip ((t - s.altitude) / 10) (-10) 10 := by
      unfold npClip
      rw [hmax]
      exact le_min (by norm_num) (by linarith)
    have hru : npClip ((t - s.altitude) / 10) (-10) 10 * s.update_interval
        ≤ t - s.altitude := by
      rcases le_total ((t - s.altitude) / 10) 10 with hcase | hcase
      · have hr : npClip ((t - s.altitude) / 10) (-10) 10
            = (t - s.altitude) / 10 := by
          unfold npClip
          rw [hmax]
          exact min_eq_right hcase
        rw [hr]
        nlinarith
      · have hr : npClip ((t - s.altitude) / 10) (-10) 10 = 10 := by
          unfold npClip
          rw [hmax]
          exact min_eq_left hcase
        rw [hr]
        nlinarith
    rw [halt]
    constructor
    · nlinarith [mul_nonneg hr0 (le_of_lt hu0)]
    · linarith
  · intro hge
    have hd1 : t - s.altitude ≤ -1 := by
      have := hd
      rw [abs_of_nonpos (by linarith)] at this
      linarith
    have hmaxle : max (-10 : ℚ) ((t - s.altitude) / 10) ≤ 10 :=
      max_le (by norm_num) (by linarith)
    have hrmax : npClip ((t - s.altitude) / 10) (-10) 10
        = max (-10 : ℚ) ((t - s.altitude) / 10) := by
      unfold npClip
      exact min_eq_right hmaxle
    have hr0 : npClip ((t - s.altitude) / 10) (-10) 10 ≤ 0 := by
      rw [hrmax]
      exact max_le (by norm_num) (by linarith)
    have hru : t - s.altitude
        ≤ npClip ((t - s.altitude) / 10) (-10) 10 * s.update_interval := by
      rcases le_total (-10 : ℚ) ((t - s.altitude) / 10) with hcase | hcase
      · have hr : npClip ((t - s.altitude) / 10) (-10) 10
            = (t - s.altitude) / 10 := by
          rw [hrmax]
          exact max_eq_right hcase
        rw [hr]
        nlinarith
      · have hr : npClip ((t - s.altitude) / 10) (-10) 10 = -10 := by
          rw [hrmax]
          exact max_eq_left hcase
        rw [hr]
        nlinarith
    rw [halt]
    constructor
    · linarith
    · nlinarith [mul_nonpos_of_nonpos_of_nonneg hr0 (le_of_lt hu0)]

/-- C6 amended witness: the engine at altitude 100 with update interval 2
and target 300 climbs by at most 20 on one tick, without crossing the
target. -/
theorem C6_amended_rate_limited_approach_witness :
    climbState2.target_altitude = some 300
      ∧ (0:ℚ) < climbState2.update_interval
      ∧ climbState2.update_interval ≤ 10
      ∧ (1:ℚ) ≤ |300 - climbState2.altitude|
      ∧ |(tick trig0 climbState2).altitude - climbState2.altitude|
        ≤ 10 * climbState2.update_interval
      ∧ climbState2.altitude ≤ (tick trig0 climbState2).altitude
      ∧ (tick trig0 climbState2).altitude ≤ 300 := by
  have ht : climbState2.target_altitude = some 300 := rfl
  have hu0 : (0:ℚ) < climbState2.update_interval := by
    norm_num [climbState2, initSimState]
  have hu10 : climbState2.update_interval ≤ 10 := by
    norm_num [climbState2, initSimState]
  have hd : (1:ℚ) ≤ |300 - climbState2.altitude| := by
    norm_num [climbState2, initSimState, abs]
  have h := (C6_amended_rate_limited_approach trig0 climbState2 300
    ht hu0 hu10).2 hd
  have hle := h.2.1 (by norm_num [climbState2, initSimState])
  exact ⟨ht, hu0, hu10, hd, h.1, hle.1, hle.2⟩
